import Mathlib

/-!
Verification of the living-templates daemon core against its specification.

Each definition below is a shallow embedding of a function of the Python
source (`src/living_templates/core/...`); file, class and line references
are given in the doc comments.  Filesystem state, database tables and the
daemon's in-memory indexes are modelled explicitly; cryptographic digests
are kept abstract (only their determinism is ever used).
-/

namespace LivingTemplates

/-! ### Content store (`storage.py`, `ContentStore`) -/

/-- The content-store directory, modelled as an association list from blob
file name (the content hash) to the blob's full text.  A key being present
models `content_path.exists()`. -/
structure StoreFS where
  blobs : List (String × String)
deriving Repr, DecidableEq

/-- Result of `ContentStore.store_content`: the returned hash, the returned
path, whether the blob file was written by this call, and the store
directory afterwards. -/
structure StoreResult where
  hash : String
  path : String
  wrote : Bool
  fs : StoreFS
deriving Repr, DecidableEq

/-- `ContentStore.store_content` (storage.py lines 35-52): hash the content
(`_hash_content`, an opaque deterministic digest `hashFn`), derive the blob
path `store_path / content_hash`, and write the blob only when no file with
that hash exists. -/
def storeContent (hashFn : String → String) (storePath : String)
    (fs : StoreFS) (content : String) : StoreResult :=
  let contentHash := hashFn content
  let contentPath := storePath ++ "/" ++ contentHash
  if (fs.blobs.lookup contentHash).isSome then
    { hash := contentHash, path := contentPath, wrote := false, fs := fs }
  else
    { hash := contentHash, path := contentPath, wrote := true,
      fs := { blobs := (contentHash, content) :: fs.blobs } }

/-! ### Symlink writer (`storage.py`, `SymlinkManager.create_symlink`) -/

/-- What a reader of the output path can observe there: nothing, a regular
file with some content, or a symlink to a content-store path. -/
inductive TargetState where
  | absent : TargetState
  | file (content : String) : TargetState
  | symlink (dest : String) : TargetState
deriving Repr, DecidableEq

/-- `target_path.exists() or target_path.is_symlink()` (storage.py line 125). -/
def targetPresent : TargetState → Bool
  | .absent => false
  | .file _ => true
  | .symlink _ => true

/-- The unlink step of `create_symlink` (storage.py lines 124-126): remove
any existing file or symlink at the target. -/
def unlinkStep (s : TargetState) : TargetState :=
  if targetPresent s then .absent else s

/-- The sequence of observable states of the output path while
`SymlinkManager.create_symlink` (storage.py lines 117-132) runs: the initial
state, the state after the unlink step, the state after `mkdir(parents=True)`
(which does not touch the target path itself), and the state after
`target_path.symlink_to(content_path)`. -/
def createSymlinkTrace (initial : TargetState) (contentPath : String) :
    List TargetState :=
  let afterUnlink := unlinkStep initial
  let afterMkdir := afterUnlink
  [initial, afterUnlink, afterMkdir, .symlink contentPath]

/-- A Replace-mode build's output step (daemon.py lines 658-668): store the
rendered content in the content store, then swap the symlink at the output
path.  Returns the store afterwards, the content hash and path, and the
observable states of the output path. -/
def replaceBuild (hashFn : String → String) (storePath : String)
    (fs : StoreFS) (initial : TargetState) (rendered : String) :
    StoreResult × List TargetState :=
  let r := storeContent hashFn storePath fs rendered
  (r, createSymlinkTrace initial r.path)

/-! ### Data model (`models.py`) -/

/-- `NodeType` (models.py lines 11-18). -/
inductive NodeTypeM where
  | template | program | file | webhook | manual | tail
deriving Repr, DecidableEq

/-- `InputType` (models.py lines 21-29). -/
inductive InputTypeM where
  | string | integer | number | boolean | array | object | file
deriving Repr, DecidableEq

/-- `OutputMode` (models.py lines 32-37). -/
inductive OutputModeM where
  | replace | append | prepend | concatenate
deriving Repr, DecidableEq

/-- `LogLevel` (models.py lines 46-51). -/
inductive LogLevelM where
  | debug | info | warning | error
deriving Repr, DecidableEq

/-- A Python value as it appears in input dictionaries.  The constructor
`pnone` models Python `None`; the string constructor matters because the
daemon special-cases `isinstance(value, str)` for file inputs. -/
inductive PyVal where
  | pnone
  | str (s : String)
  | int (n : Int)
  | boolean (b : Bool)
deriving Repr, DecidableEq

/-- Dictionary lookup (`name in d` / `d[name]`, `d.get(name)`) over an
association list in insertion order. -/
def getVal (k : String) : List (String × α) → Option α
  | [] => none
  | (k', v) :: rest => if k = k' then some v else getVal k rest

/-- `InputSpec` (models.py lines 54-67).  A Python `default=None` is
`PyVal.pnone` (the code tests `default is not None`); `source=None` is
`Option.none`. -/
structure InputSpecM where
  type : InputTypeM
  default : PyVal
  required : Bool
  source : Option String
deriving Repr, DecidableEq

/-- `NodeConfig` (models.py lines 70-97), restricted to the fields the
daemon core reads. -/
structure NodeConfigM where
  nodeType : NodeTypeM
  inputs : List (String × InputSpecM)
  outputs : List String
  outputMode : OutputModeM
  templateContent : Option String
  scriptPath : Option String
  command : Option String
  timeout : Option Nat
deriving Repr, DecidableEq

/-- `TemplateNode` (models.py lines 144-160) as stored in the `nodes`
table; `createdAt` is the row's `created_at` timestamp. -/
structure NodeRec where
  id : String
  config : NodeConfigM
  configPath : Option String
  createdAt : Nat
deriving Repr, DecidableEq

/-- `NodeInstance` (models.py lines 100-108). -/
structure InstanceRec where
  id : String
  nodeId : String
  inputValues : List (String × PyVal)
  outputPath : String
  lastBuilt : Option Nat
  buildCount : Nat
deriving Repr, DecidableEq

/-- One execution-log entry (level and message; ids and timestamps
elided). -/
structure LogEntryM where
  level : LogLevelM
  message : String
deriving Repr, DecidableEq

/-- The daemon's durable state as the claims observe it: the `nodes` and
`node_instances` tables (the in-memory `node_instances` index is kept in
sync with the table by every code path modelled here), the set of output
paths currently holding an output artifact, and the execution log. -/
structure DaemonState where
  nodes : List NodeRec
  instances : List InstanceRec
  artifacts : List String
  logs : List (String × LogEntryM)
deriving Repr, DecidableEq

/-- Find a node row by id (`Database.get_node`). -/
def findNode (s : DaemonState) (nodeId : String) : Option NodeRec :=
  s.nodes.find? (fun n => n.id == nodeId)

/-- Append one execution-log entry for a node (`LivingTemplatesDaemon._log`). -/
def addLog (s : DaemonState) (nodeId : String) (level : LogLevelM)
    (message : String) : DaemonState :=
  { s with logs := s.logs ++ [(nodeId, ⟨level, message⟩)] }

/-! ### Input resolution (`daemon.py`, `_resolve_input_values`) -/

/-- Python truthiness of `input_spec.source` (`elif input_spec.source:`):
true iff the source is present and non-empty. -/
def sourceTruthy : Option String → Bool
  | some s => s ≠ ""
  | none => false

/-- The file-input normalisation at the end of the per-input loop
(daemon.py lines 814-822): a string value for a file-typed input is
resolved to an absolute path when the path exists, kept verbatim
otherwise; non-string values and non-file inputs pass through. -/
def adjustFileValue (fileExists : String → Bool)
    (resolvePath : String → String) (spec : InputSpecM) (v : PyVal) : PyVal :=
  if spec.type = InputTypeM.file then
    match v with
    | .str s => if fileExists s then .str (resolvePath s) else .str s
    | _ => v
  else v

/-- `LivingTemplatesDaemon._resolve_input_values`, body of the per-input
loop (daemon.py lines 795-822).  `resolveRef` models the try-block
`NodeReference.parse_reference` + `_resolve_node_reference` (either step
may raise); `fileExists`/`resolvePath` model `Path.exists`/`Path.resolve`.
Returns the resolved value together with any Warning logs, or the
`ValueError` message for a missing required input. -/
def resolveInputValue (resolveRef : String → Except String PyVal)
    (fileExists : String → Bool) (resolvePath : String → String)
    (instanceValues : List (String × PyVal))
    (name : String) (spec : InputSpecM) :
    Except String (PyVal × List LogEntryM) :=
  let selected : Except String (PyVal × List LogEntryM) :=
    match getVal name instanceValues with
    | some v => .ok (v, [])
    | none =>
      if sourceTruthy spec.source then
        match resolveRef (spec.source.getD "") with
        | .ok v => .ok (v, [])
        | .error e =>
          .ok (spec.default,
               [⟨.warning, "Failed to resolve reference: " ++ e⟩])
      else if spec.default ≠ PyVal.pnone then .ok (spec.default, [])
      else .error ("Required input '" ++ name ++ "' not provided")
  match selected with
  | .error e => .error e
  | .ok (v, logs) => .ok (adjustFileValue fileExists resolvePath spec v, logs)

/-- The full `_resolve_input_values` loop (daemon.py lines 787-824): inputs
are resolved in declaration order and the first failure propagates as an
exception. -/
def resolveInputValues (resolveRef : String → Except String PyVal)
    (fileExists : String → Bool) (resolvePath : String → String)
    (inputs : List (String × InputSpecM))
    (instanceValues : List (String × PyVal)) :
    Except String (List (String × PyVal) × List LogEntryM) :=
  match inputs with
  | [] => .ok ([], [])
  | (name, spec) :: rest =>
    match resolveInputValue resolveRef fileExists resolvePath
        instanceValues name spec with
    | .error e => .error e
    | .ok (v, logs) =>
      match resolveInputValues resolveRef fileExists resolvePath rest
          instanceValues with
      | .error e => .error e
      | .ok (ctx, logs') => .ok ((name, v) :: ctx, logs ++ logs')

/-! ### Building instances (`daemon.py`, `_build_instance` and the
rebuild / change-handling paths built on it)

The type-specific builders (`_build_template_instance` and friends) touch
the template engine, filesystem and subprocesses; their outcome on a given
node and instance is abstracted as a `builder` function returning success
or the exception message.  What is embedded exactly is the daemon's
control flow around that call: logging, metadata update, re-raising, and
the loops over instances. -/

/-- `LivingTemplatesDaemon._build_instance` (daemon.py lines 614-642):
log at Debug, dispatch to the type-specific builder, on success update
`last_built` and `build_count` and store the instance; on failure log at
Error and re-raise the exception. -/
def buildInstance (builder : NodeRec → InstanceRec → Except String Unit)
    (now : Nat) (node : NodeRec) (inst : InstanceRec) :
    Except String InstanceRec × List LogEntryM :=
  match builder node inst with
  | .ok _ =>
    (.ok { inst with lastBuilt := some now, buildCount := inst.buildCount + 1 },
     [⟨.debug, "Building instance: " ++ inst.id⟩])
  | .error e =>
    (.error e,
     [⟨.debug, "Building instance: " ++ inst.id⟩,
      ⟨.error, "Build failed for instance " ++ inst.id ++ ": " ++ e⟩])

/-- The loop body of `rebuild_node_instances` (daemon.py lines 289-291):
build this node's instances in order.  Returns the instance list
afterwards, the logs written, and the exception (if any) that aborted the
loop; instances after the failing one keep their old metadata because the
raised exception stops the `for` loop. -/
def rebuildList (builder : NodeRec → InstanceRec → Except String Unit)
    (now : Nat) (node : NodeRec) :
    List InstanceRec → List InstanceRec × List LogEntryM × Option String
  | [] => ([], [], none)
  | i :: rest =>
    if i.nodeId = node.id then
      match buildInstance builder now node i with
      | (.ok i', logs) =>
        let (rest', logs', err) := rebuildList builder now node rest
        (i' :: rest', logs ++ logs', err)
      | (.error e, logs) => (i :: rest, logs, some e)
    else
      let (rest', logs', err) := rebuildList builder now node rest
      (i :: rest', logs', err)

/-- The metadata update a successful build applies to an instance owned by
the node (`last_built`, `build_count`); instances of other nodes are not
touched by the rebuild loop. -/
def rebuildUpd (now : Nat) (node : NodeRec) (i : InstanceRec) : InstanceRec :=
  if i.nodeId = node.id then
    { i with lastBuilt := some now, buildCount := i.buildCount + 1 }
  else i

/-- `LivingTemplatesDaemon.rebuild_node_instances` (daemon.py lines
279-293): look up the node (silently return when unknown), build every
instance in order, and log "Node instances rebuilt" at Info only when the
loop completes.  The second component is the exception propagating to the
caller, `none` on success. -/
def rebuildNodeInstances (builder : NodeRec → InstanceRec → Except String Unit)
    (now : Nat) (s : DaemonState) (nodeId : String) :
    DaemonState × Option String :=
  match findNode s nodeId with
  | none => (s, none)
  | some node =>
    let (insts, logs, err) := rebuildList builder now node s.instances
    let s' := { s with instances := insts,
                       logs := s.logs ++ logs.map (fun l => (nodeId, l)) }
    match err with
    | some e => (s', some e)
    | none => (addLog s' nodeId .info "Node instances rebuilt", none)

/-! ### Node lifecycle (`daemon.py`, `register_node` / `unregister_node` /
`create_instance` / `handle_file_change`) -/

/-- `LivingTemplatesDaemon.register_node` (daemon.py lines 170-201)
together with `Database.store_node` (storage.py lines 273-286).
`loadConfig` models the config-parsing collaborator, `digest` the
deterministic `_generate_node_id` hash of the config path.  `store_node`
is an SQL `INSERT OR REPLACE` that omits `created_at`, so the stored row's
`created_at` is the current time whether or not a row with this id
existed. -/
def registerNode (digest : String → String)
    (loadConfig : String → NodeConfigM) (now : Nat)
    (s : DaemonState) (configPath : String) : DaemonState × String :=
  let nodeId := digest configPath
  let node : NodeRec :=
    { id := nodeId, config := loadConfig configPath,
      configPath := some configPath, createdAt := now }
  ({ s with
      nodes := s.nodes.filter (fun n => n.id ≠ nodeId) ++ [node],
      logs := s.logs ++ [(nodeId, ⟨.info, "Node registered: " ++ configPath⟩)] },
   nodeId)

/-- `LivingTemplatesDaemon.unregister_node` (daemon.py lines 203-233) with
`_remove_instance` (lines 867-883) and `Database.remove_node` (storage.py
lines 568-580): every instance of the node is removed and its output
artifact deleted (`remove_symlink`), the node's execution logs, values,
dependencies, tail state and triggers are cascade-deleted, and the node
row itself is removed; a final "Node unregistered" entry is then logged. -/
def unregisterNode (s : DaemonState) (nodeId : String) : DaemonState :=
  let removedOutputs :=
    (s.instances.filter (fun i => i.nodeId = nodeId)).map (fun i => i.outputPath)
  { nodes := s.nodes.filter (fun n => n.id ≠ nodeId),
    instances := s.instances.filter (fun i => i.nodeId ≠ nodeId),
    artifacts := s.artifacts.filter (fun p => ¬ removedOutputs.contains p),
    logs := s.logs.filter (fun l => l.1 ≠ nodeId)
            ++ [(nodeId, ⟨.info, "Node unregistered"⟩)] }

/-- `LivingTemplatesDaemon.create_instance` (daemon.py lines 235-277): a
fresh instance is persisted and indexed before any check; only then is the
node looked up, and when it exists the initial build runs (whose exception
propagates to the caller).  When the node does not exist the lookup's
`if node:` simply skips watching and building, the Info log is written and
the new instance id is returned. -/
def createInstance (builder : NodeRec → InstanceRec → Except String Unit)
    (now : Nat) (s : DaemonState) (nodeId outputPath : String)
    (inputValues : List (String × PyVal)) (newId : String) :
    DaemonState × Except String String :=
  let inst : InstanceRec :=
    { id := newId, nodeId := nodeId, inputValues := inputValues,
      outputPath := outputPath, lastBuilt := none, buildCount := 0 }
  let s1 := { s with instances := s.instances ++ [inst] }
  match findNode s1 nodeId with
  | some node =>
    match buildInstance builder now node inst with
    | (.ok inst', logs) =>
      let s2 := { s1 with
        instances := s1.instances.map (fun i => if i.id = newId then inst' else i),
        artifacts :=
          if outputPath ∈ s1.artifacts then s1.artifacts
          else s1.artifacts ++ [outputPath],
        logs := s1.logs ++ logs.map (fun l => (nodeId, l)) }
      (addLog s2 nodeId .info ("Instance created: " ++ newId), .ok newId)
    | (.error e, logs) =>
      ({ s1 with logs := s1.logs ++ logs.map (fun l => (nodeId, l)) }, .error e)
  | none =>
    (addLog s1 nodeId .info ("Instance created: " ++ newId), .ok newId)

/-- `LivingTemplatesDaemon.handle_file_change` (daemon.py lines 295-328).
When the changed path is the node's own config path: a program node whose
script resolves to the same file is ignored (loop guard, Debug log);
otherwise the node is unregistered and re-registered from the same config
path.  Any other path is an ordinary input change and triggers
`rebuild_node_instances` (whose exception propagates out of the handler,
returned as the second component). -/
def handleFileChange (builder : NodeRec → InstanceRec → Except String Unit)
    (digest : String → String) (loadConfig : String → NodeConfigM)
    (resolvePath : String → String) (now : Nat)
    (s : DaemonState) (nodeId filePath : String) :
    DaemonState × Option String :=
  let s := addLog s nodeId .debug ("File change detected: " ++ filePath)
  match findNode s nodeId with
  | some node =>
    if node.configPath = some filePath then
      if node.config.nodeType = NodeTypeM.program ∧
         (node.config.scriptPath.map resolvePath) = some (resolvePath filePath)
      then
        (addLog s nodeId .debug
          "Ignoring script file change during execution to prevent loops", none)
      else
        let s1 := unregisterNode s nodeId
        let (s2, _) := registerNode digest loadConfig now s1 filePath
        (addLog s2 nodeId .info "Node reloaded due to config change", none)
    else rebuildNodeInstances builder now s nodeId
  | none => rebuildNodeInstances builder now s nodeId

/-! ### Program executor (`executor.py`, `ProgramExecutor.execute_program`) -/

/-- The observable steps the executor takes on the subprocess: spawning it
(`create_subprocess_exec`), force-killing it (`process.kill()`), reaping it
(`await process.wait()`), or seeing it finish (`communicate()` returning
within the timeout). -/
inductive ExecEvent where
  | spawn | killProc | waitProc | finished
deriving Repr, DecidableEq

/-- The errors `execute_program` raises: the `ValueError` for a node with
neither script nor command, the timeout `RuntimeError`, and
`CalledProcessError` for a non-zero exit. -/
inductive ExecErr where
  | noCommand
  | timeout (seconds : Option Nat)
  | nonZeroExit (code : Int)
deriving Repr, DecidableEq

/-- What the spawned process would do, abstracted: its wall-clock duration,
exit code, and which of the declared output names it writes into the
temporary output directory. -/
structure ProcBehavior where
  duration : Nat
  returncode : Int
  producedFiles : List String
deriving Repr, DecidableEq

/-- `ProgramExecutor.execute_program` (executor.py lines 126-208), from the
spawn onwards.  `asyncio.wait_for(process.communicate(), timeout)` raises
`TimeoutError` when the run outlasts `node.config.timeout` (a `None`
timeout never fires); the handler then kills the process, awaits it, and
only afterwards raises the timeout `RuntimeError` (lines 201-204).  Within
the timeout, a non-zero exit raises `CalledProcessError` (line 168) and a
zero exit collects the declared output files that exist in the temp
directory, skipping missing ones with a Warning (lines 171-184). -/
def executeProgram (cfg : NodeConfigM) (beh : ProcBehavior) :
    Except ExecErr (List String) × List ExecEvent :=
  if cfg.scriptPath = none ∧ cfg.command = none then
    (.error .noCommand, [])
  else
    let timedOut : Bool := match cfg.timeout with
      | some t => decide (beh.duration > t)
      | none => false
    if timedOut then
      (.error (.timeout cfg.timeout), [.spawn, .killProc, .waitProc])
    else if beh.returncode ≠ 0 then
      (.error (.nonZeroExit beh.returncode), [.spawn, .finished])
    else
      (.ok (cfg.outputs.filter (fun o => beh.producedFiles.contains o)),
       [.spawn, .finished])

/-- A cached output value (`NodeValue`, written via
`Database.store_node_value`). -/
structure NodeValueM where
  nodeId : String
  outputName : String
  value : String
deriving Repr, DecidableEq

/-- `LivingTemplatesDaemon._build_program_instance` (daemon.py lines
688-773), restricted to the node-value cache: `execute_program` runs
first, and any exception from it propagates before the
`store_node_value` loop is reached; on success one value is stored per
declared output name paired positionally with a returned output file
(lines 751-765).  `fileContent` models reading a returned file. -/
def buildProgramInstance (cfg : NodeConfigM) (beh : ProcBehavior)
    (nodeId : String) (values : List NodeValueM)
    (fileContent : String → String) :
    Except ExecErr Unit × List NodeValueM :=
  match (executeProgram cfg beh).1 with
  | .error e => (.error e, values)
  | .ok files =>
    (.ok (),
     values ++ (cfg.outputs.zip files).map
       (fun p => { nodeId := nodeId, outputName := p.1,
                   value := fileContent p.2 }))

/-! ### Tail watcher (`tail_watcher.py`) -/

/-- `TailState` (models.py lines 190-197). -/
structure TailStateM where
  nodeId : String
  filePath : String
  lastPosition : Nat
  lastInode : Option Nat
  buffer : List String
deriving Repr, DecidableEq

/-- The `TailWatcher`'s mutable maps (tail_watcher.py lines 16-17):
`watched_files : path → TailState` and `callbacks : path → [callback]`,
as association lists in insertion order.  Callbacks are identified by
opaque ids.  Paths are taken as already resolved — both `add_file_watch`
and `remove_file_watch` normalise with the same
`str(Path(p).resolve())`. -/
structure TailWatcherState where
  watched : List (String × TailStateM)
  callbacks : List (String × List Nat)
deriving Repr, DecidableEq

/-- `TailWatcher.add_file_watch` (tail_watcher.py lines 21-74): a first
watch on a path creates its tail state and an empty callback list (the
initial read of an existing file is elided — it only seeds
position/buffer); then the callback is appended unless already
registered. -/
def addFileWatch (s : TailWatcherState) (nodeId path : String) (cb : Nat) :
    TailWatcherState :=
  let s :=
    if (getVal path s.watched).isSome then s
    else
      { watched := s.watched ++
          [(path, { nodeId := nodeId, filePath := path, lastPosition := 0,
                    lastInode := none, buffer := [] })],
        callbacks := s.callbacks ++ [(path, [])] }
  { s with callbacks := s.callbacks.map (fun p =>
      if p.1 = path then
        (p.1, if p.2.contains cb then p.2 else p.2 ++ [cb])
      else p) }

/-- `TailWatcher.remove_file_watch` (tail_watcher.py lines 76-92): when the
path is watched at all, the entire callback list and the entire tail state
for that path are deleted; the `node_id` argument is never consulted. -/
def removeFileWatch (s : TailWatcherState) (nodeId path : String) :
    TailWatcherState :=
  if (getVal path s.watched).isSome then
    { watched := s.watched.filter (fun p => p.1 ≠ path),
      callbacks :=
        if (getVal path s.callbacks).isSome then
          s.callbacks.filter (fun p => p.1 ≠ path)
        else s.callbacks }
  else s

/-- Python `text.split('\n')` over the character list: splitting on a
single-character separator yields the (possibly empty) segments between
newlines; a string with no newline yields one segment, a trailing newline
yields a trailing empty segment. -/
def splitNlChars : List Char → List (List Char)
  | [] => [[]]
  | c :: rest =>
    let r := splitNlChars rest
    if c = '\n' then [] :: r
    else match r with
      | [] => [[c]]
      | h :: t => (c :: h) :: t

/-- `new_content.split('\n')` (tail_watcher.py line 167). -/
def splitNl (s : String) : List String :=
  (splitNlChars s.data).map String.mk

/-- Append a string to the last element of a list (Python
`state.buffer[-1] += lines[0]`); the empty case is unreachable under the
caller's guard. -/
def glueLast (buffer : List String) (x : String) : List String :=
  match buffer with
  | [] => []
  | [b] => [b ++ x]
  | b :: rest => b :: glueLast rest x

/-- The line-reassembly step of `TailWatcher._check_file_changes`
(tail_watcher.py lines 165-187) on the delta read from a grown file:
split the delta on newline; whenever the buffer is non-empty, concatenate
the first chunk onto the buffer's last entry and drop it from the list;
all split segments but the last become new buffer lines and the cycle's
`new_lines`; cap the buffer at 1000 entries (dropping oldest); finally a
non-empty trailing segment is appended to the buffer.  Returns the buffer
afterwards and `new_lines`. -/
def processDelta (buffer : List String) (delta : String) :
    List String × List String :=
  if delta = "" then (buffer, [])
  else
    let lines := splitNl delta
    let glued : List String × List String :=
      match buffer, lines with
      | [], _ => (buffer, lines)
      | _, [] => (buffer, lines)
      | _ :: _, l0 :: ltl => (glueLast buffer l0, ltl)
    let buf1 := glued.1 ++ glued.2.dropLast
    let buf2 := if buf1.length > 1000 then buf1.drop (buf1.length - 1000) else buf1
    let buf3 := match glued.2.getLast? with
      | some lastSeg => if lastSeg ≠ "" then buf2 ++ [lastSeg] else buf2
      | none => buf2
    (buf3, glued.2.dropLast)

/-- The delivery step of `_check_file_changes` (tail_watcher.py lines
189-198): when the cycle produced any `new_lines`, every callback
registered for the path is invoked with `(node_id, new_lines)`.  Returns
the new buffer and the list of invocations. -/
def checkGrownFile (callbacks : List Nat) (nodeId : String)
    (buffer : List String) (delta : String) :
    List String × List (Nat × String × List String) :=
  let (buf, newLines) := processDelta buffer delta
  (buf, if newLines.isEmpty then []
        else callbacks.map (fun cb => (cb, nodeId, newLines)))

/-! ### Webhook trigger queue (`daemon.py` `_process_webhook_trigger`,
`storage.py` webhook tables) -/

/-- A row of the `webhook_triggers` table (storage.py lines 253-261);
payload and headers are elided, `timestampMs` is the trigger timestamp in
milliseconds. -/
structure TriggerRow where
  id : String
  nodeId : String
  timestampMs : Nat
  processed : Bool
deriving Repr, DecidableEq

/-- A `WebhookTrigger` object as reconstructed by
`get_pending_webhook_triggers` — note it carries no row id (models.py
lines 200-205). -/
structure WebhookTriggerM where
  nodeId : String
  timestampMs : Nat
deriving Repr, DecidableEq

/-- The state the webhook drain loop observes: the trigger table and the
node table projected to node types (only existence and `node_type` are
consulted); the per-instance rendering/output side effects are outside
this model. -/
structure WebhookState where
  triggers : List TriggerRow
  nodeTypes : List (String × NodeTypeM)
deriving Repr, DecidableEq

/-- The deterministic trigger id, `node_id + "_" + int(timestamp * 1000)`,
computed identically by `store_webhook_trigger` (storage.py line 523) and
by `_process_webhook_trigger` (daemon.py line 941). -/
def webhookTriggerId (nodeId : String) (timestampMs : Nat) : String :=
  nodeId ++ "_" ++ toString timestampMs

/-- `Database.store_webhook_trigger` (storage.py lines 521-537): insert an
unprocessed row under the derived id. -/
def storeWebhookTrigger (s : WebhookState) (t : WebhookTriggerM) :
    WebhookState × String :=
  let tid := webhookTriggerId t.nodeId t.timestampMs
  ({ s with triggers := s.triggers ++
      [{ id := tid, nodeId := t.nodeId, timestampMs := t.timestampMs,
         processed := false }] },
   tid)

/-- The unprocessed rows, in table order
(`Database.get_pending_webhook_triggers`, storage.py lines 539-558,
`WHERE processed = FALSE`). -/
def pendingRows (s : WebhookState) : List TriggerRow :=
  s.triggers.filter (fun r => !r.processed)

/-- `get_pending_webhook_triggers` reconstructs id-less trigger objects
from the pending rows. -/
def getPendingWebhookTriggers (s : WebhookState) : List WebhookTriggerM :=
  (pendingRows s).map (fun r => { nodeId := r.nodeId, timestampMs := r.timestampMs })

/-- `Database.mark_webhook_processed` (storage.py lines 560-566):
`UPDATE webhook_triggers SET processed = TRUE WHERE id = ?`. -/
def markWebhookProcessed (s : WebhookState) (tid : String) : WebhookState :=
  { s with triggers := s.triggers.map (fun r =>
      if r.id = tid then { r with processed := true } else r) }

/-- `LivingTemplatesDaemon._process_webhook_trigger` (daemon.py lines
904-942): a missing node or a non-webhook node returns early without
marking; otherwise every instance is processed (rendering/output elided
here) and the trigger's recomputed id is marked processed. -/
def processWebhookTrigger (s : WebhookState) (t : WebhookTriggerM) :
    WebhookState :=
  match getVal t.nodeId s.nodeTypes with
  | some NodeTypeM.webhook =>
    markWebhookProcessed s (webhookTriggerId t.nodeId t.timestampMs)
  | _ => s

/-! ## Theorems -/

/-- C2: storing content returns the digest of the content and the path
derived from it; storing identical content a second time returns the same
hash and path, finds the blob already present, performs no write, and
leaves the store unchanged — so across the two stores the blob is written
at most once. -/
theorem C2_store_content_dedup (hashFn : String → String) (storePath : String)
    (fs : StoreFS) (content : String) :
    let r1 := storeContent hashFn storePath fs content
    let r2 := storeContent hashFn storePath r1.fs content
    r1.hash = hashFn content ∧
    r1.path = storePath ++ "/" ++ hashFn content ∧
    r2.hash = r1.hash ∧ r2.path = r1.path ∧
    r2.wrote = false ∧ r2.fs = r1.fs := by
  unfold storeContent
  by_cases h : (fs.blobs.lookup (hashFn content)).isSome
  · simp [h]
  · simp [h, List.lookup]

/-- C1 (counterexample): the Replace-mode symlink writer is not atomic for
readers.  With an old complete output in place, the observable state after
the unlink step is a missing output path — neither the old content nor the
new content, contradicting "a reader never observes a partial or missing
output". -/
theorem C1_counterexample_missing_state :
    createSymlinkTrace (TargetState.symlink "/store/oldhash") "/store/newhash"
      = [TargetState.symlink "/store/oldhash", TargetState.absent,
         TargetState.absent, TargetState.symlink "/store/newhash"] ∧
    TargetState.absent ≠ TargetState.symlink "/store/oldhash" ∧
    TargetState.absent ≠ TargetState.symlink "/store/newhash" :=
  ⟨rfl, by simp, by simp⟩

/-- C1 (amended): after a successful Replace-mode build the output path is
a symlink to exactly one complete content blob holding the full rendered
content; at every observable state of the writer's sequence the output
path is the old state, missing, or the new complete content — a reader can
observe a transiently missing output (between unlink and symlink
creation), but never a partially written one. -/
theorem C1_amended_replace_swap (hashFn : String → String) (storePath : String)
    (fs : StoreFS) (initial : TargetState) (rendered : String)
    (hfresh : fs.blobs.lookup (hashFn rendered) = none ∨
              fs.blobs.lookup (hashFn rendered) = some rendered) :
    let rt := replaceBuild hashFn storePath fs initial rendered
    rt.2.getLast? = some (TargetState.symlink rt.1.path) ∧
    rt.1.fs.blobs.lookup rt.1.hash = some rendered ∧
    ∀ st ∈ rt.2,
      st = initial ∨ st = TargetState.absent ∨
        st = TargetState.symlink rt.1.path := by
  unfold replaceBuild createSymlinkTrace storeContent
  rcases hfresh with h | h
  · simp only [h, Option.isSome_none, Bool.false_eq_true, if_false]
    refine ⟨rfl, by simp [List.lookup], ?_⟩
    intro st hst
    simp only [List.mem_cons, List.not_mem_nil, or_false] at hst
    rcases hst with rfl | rfl | rfl | rfl
    · exact Or.inl rfl
    · unfold unlinkStep
      by_cases hp : targetPresent initial = true
      · simp [hp]
      · simp [hp]
    · unfold unlinkStep
      by_cases hp : targetPresent initial = true
      · simp [hp]
      · simp [hp]
    · exact Or.inr (Or.inr rfl)
  · have hs : (fs.blobs.lookup (hashFn rendered)).isSome = true := by
      simp [h]
    simp only [hs, if_true]
    refine ⟨rfl, h, ?_⟩
    intro st hst
    simp only [List.mem_cons, List.not_mem_nil, or_false] at hst
    rcases hst with rfl | rfl | rfl | rfl
    · exact Or.inl rfl
    · unfold unlinkStep
      by_cases hp : targetPresent initial = true
      · simp [hp]
      · simp [hp]
    · unfold unlinkStep
      by_cases hp : targetPresent initial = true
      · simp [hp]
      · simp [hp]
    · exact Or.inr (Or.inr rfl)

/-- C1 (witness): the amended theorem applied to a concrete build over an
empty store, replacing an existing regular file. -/
theorem C1_amended_replace_swap_witness :
    ((StoreFS.mk []).blobs.lookup ((fun s => "H" ++ s) "hi") = none ∨
     (StoreFS.mk []).blobs.lookup ((fun s => "H" ++ s) "hi") = some "hi") ∧
    (let rt := replaceBuild (fun s => "H" ++ s) "/store" (StoreFS.mk [])
        (TargetState.file "old") "hi"
     rt.2.getLast? = some (TargetState.symlink rt.1.path) ∧
     rt.1.fs.blobs.lookup rt.1.hash = some "hi" ∧
     ∀ st ∈ rt.2,
       st = TargetState.file "old" ∨ st = TargetState.absent ∨
         st = TargetState.symlink rt.1.path) :=
  ⟨Or.inl rfl,
   C1_amended_replace_swap (fun s => "H" ++ s) "/store" (StoreFS.mk [])
     (TargetState.file "old") "hi" (Or.inl rfl)⟩

/-- Gluing a chunk onto the last element of a non-empty list. -/
theorem glueLast_append : ∀ (B : List String) (l x : String),
    glueLast (B ++ [l]) x = B ++ [l ++ x]
  | [], _, _ => rfl
  | _ :: bs, l, x => by
    cases bs with
    | nil => rfl
    | cons c cs => exact congrArg _ (glueLast_append (c :: cs) l x)

/-- C7 (counterexample): line reassembly does not check whether the
buffer's last entry is an unterminated fragment.  First cycle: empty
buffer, delta `"a\n"` — the fully terminated line `"a"` enters the buffer
and is delivered.  Second cycle: delta `"b\n"` — the claim says `"b"`
starts a new line (the last entry is not a fragment) and is delivered, but
the code glues `"b"` onto the complete line, producing buffer `["ab"]` and
delivering nothing. -/
theorem C7_counterexample_glues_complete_line :
    processDelta [] "a\n" = (["a"], ["a"]) ∧
    processDelta ["a"] "b\n" = (["ab"], []) ∧
    (["ab"], ([] : List String)) ≠ (["a", "b"], ["b"]) := by
  refine ⟨by decide, by decide, by decide⟩

/-- C7 (amended): on a delta read from a grown file, whenever the buffer
is non-empty its last entry absorbs the first split chunk — whether or not
that entry was an unterminated fragment; the interior fully terminated
segments become new buffer lines and are exactly the lines delivered to
every registered callback (so a line completed by terminating a previous
fragment is never delivered); a non-empty trailing segment is appended to
the buffer as the new pending fragment. -/
theorem C7_amended_line_reassembly
    (B : List String) (l first t : String) (rest : List String)
    (delta : String) (callbacks : List Nat) (nodeId : String)
    (h0 : delta ≠ "")
    (hsplit : splitNl delta = first :: rest)
    (hlast : rest.getLast? = some t)
    (hcap : (B ++ [l ++ first] ++ rest.dropLast).length ≤ 1000) :
    processDelta (B ++ [l]) delta =
      ((B ++ [l ++ first] ++ rest.dropLast) ++ (if t ≠ "" then [t] else []),
       rest.dropLast) ∧
    (checkGrownFile callbacks nodeId (B ++ [l]) delta).2 =
      (if rest.dropLast.isEmpty then []
       else callbacks.map (fun cb => (cb, nodeId, rest.dropLast))) := by
  have hmain : processDelta (B ++ [l]) delta =
      ((B ++ [l ++ first] ++ rest.dropLast) ++ (if t ≠ "" then [t] else []),
       rest.dropLast) := by
    unfold processDelta
    rw [if_neg h0, hsplit]
    obtain ⟨b, bs, hB⟩ : ∃ b bs, B ++ [l] = b :: bs := by
      cases B with
      | nil => exact ⟨l, [], rfl⟩
      | cons b bs => exact ⟨b, bs ++ [l], rfl⟩
    rw [hB]
    have hglue : glueLast (b :: bs) first = B ++ [l ++ first] := by
      rw [← hB, glueLast_append]
    simp only [hglue, hlast]
    have hlen : ¬ (B ++ [l ++ first] ++ rest.dropLast).length > 1000 := by
      omega
    rw [if_neg hlen]
    simp only [List.append_assoc]
    by_cases ht : t = ""
    · simp [ht]
    · simp [ht]
  refine ⟨hmain, ?_⟩
  unfold checkGrownFile
  rw [hmain]

/-- C7 (witness): the amended reassembly theorem at a concrete cycle — a
pending fragment `"par"` is completed by `"tial"`, `"rest"` is delivered,
`"pend"` becomes the new pending fragment. -/
theorem C7_amended_line_reassembly_witness :
    ("tial\nrest\npend" ≠ "") ∧
    splitNl "tial\nrest\npend" = "tial" :: ["rest", "pend"] ∧
    (["rest", "pend"] : List String).getLast? = some "pend" ∧
    ((["x"] ++ ["par" ++ "tial"] ++
        (["rest", "pend"] : List String).dropLast).length ≤ 1000) ∧
    (processDelta (["x"] ++ ["par"]) "tial\nrest\npend" =
       ((["x"] ++ ["par" ++ "tial"] ++
           (["rest", "pend"] : List String).dropLast) ++
         (if "pend" ≠ "" then ["pend"] else []),
        (["rest", "pend"] : List String).dropLast) ∧
     (checkGrownFile [3] "n1" (["x"] ++ ["par"]) "tial\nrest\npend").2 =
       (if (["rest", "pend"] : List String).dropLast.isEmpty then []
        else [3].map (fun cb => (cb, "n1",
          (["rest", "pend"] : List String).dropLast)))) :=
  ⟨by decide, by decide, by decide, by decide,
   C7_amended_line_reassembly ["x"] "par" "tial" "pend" ["rest", "pend"]
     "tial\nrest\npend" [3] "n1" (by decide) (by decide) (by decide) (by decide)⟩

/-- Keys removed by a key-filter are no longer found. -/
theorem getVal_filter_ne {α : Type} (k : String) :
    ∀ (l : List (String × α)),
      getVal k (l.filter (fun p => p.1 ≠ k)) = none := by
  intro l
  induction l with
  | nil => rfl
  | cons p rest ih =>
    by_cases h : p.1 = k
    · simp only [List.filter]
      rw [show (decide (p.1 ≠ k)) = false by simp [h]]
      exact ih
    · simp only [List.filter]
      rw [show (decide (p.1 ≠ k)) = true by simp [h]]
      unfold getVal
      rw [if_neg (fun hk => h hk.symm)]
      exact ih

/-- A key appended at the end is always found. -/
theorem getVal_append_singleton {α : Type} (k : String) (v : α) :
    ∀ (l : List (String × α)), (getVal k (l ++ [(k, v)])).isSome = true := by
  intro l
  induction l with
  | nil => simp [getVal]
  | cons p rest ih =>
    rw [List.cons_append]
    unfold getVal
    by_cases h : k = p.1
    · rw [if_pos h]
      rfl
    · rw [if_neg h]
      exact ih

/-- After `add_file_watch`, the path has a tail state. -/
theorem addFileWatch_watched_isSome (s : TailWatcherState)
    (nodeId path : String) (cb : Nat) :
    (getVal path (addFileWatch s nodeId path cb).watched).isSome = true := by
  unfold addFileWatch
  by_cases h : (getVal path s.watched).isSome = true
  · rw [if_pos h]
    exact h
  · rw [if_neg h]
    exact getVal_append_singleton path _ s.watched

/-- C10: `TailWatcher.remove_file_watch` ignores which node asks — the
result is identical for any `node_id`; for every watched path it deletes
the entire tail state and the entire callback list for that path; hence
when two nodes watch the same file, removing the watch for one node also
removes the other node's callback, silently stopping its line delivery. -/
theorem C10_remove_watch_ignores_node_id :
    (∀ (s : TailWatcherState) (n1 n2 path : String),
        removeFileWatch s n1 path = removeFileWatch s n2 path) ∧
    (∀ (s : TailWatcherState) (n path : String),
        (getVal path s.watched).isSome = true →
          getVal path (removeFileWatch s n path).watched = none ∧
          getVal path (removeFileWatch s n path).callbacks = none) ∧
    (∀ (s : TailWatcherState) (nA nB path : String) (cbA cbB : Nat),
        getVal path
          (removeFileWatch
            (addFileWatch (addFileWatch s nA path cbA) nB path cbB)
            nA path).callbacks = none) := by
  refine ⟨fun s n1 n2 path => rfl, ?_, ?_⟩
  · intro s n path h
    unfold removeFileWatch
    rw [if_pos h]
    constructor
    · exact getVal_filter_ne path s.watched
    · by_cases hc : (getVal path s.callbacks).isSome
      · simp only [hc, if_true]
        exact getVal_filter_ne path s.callbacks
      · simp only [hc, Bool.false_eq_true, if_false]
        exact Option.not_isSome_iff_eq_none.mp (by simp [hc])
  · intro s nA nB path cbA cbB
    unfold removeFileWatch
    rw [if_pos (addFileWatch_watched_isSome _ nB path cbB)]
    by_cases hc :
        (getVal path (addFileWatch (addFileWatch s nA path cbA) nB path cbB).callbacks).isSome
    · simp only [hc, if_true]
      exact getVal_filter_ne path _
    · simp only [hc, Bool.false_eq_true, if_false]
      exact Option.not_isSome_iff_eq_none.mp (by simp [hc])

/-- C10 (witness): removing the watch for node `"n1"` on a concrete state
where `"n1"` and `"n2"` both watch `/var/log/app.log` (the second and
third conjuncts of the theorem applied at concrete inputs). -/
theorem C10_remove_watch_ignores_node_id_witness :
    ((getVal "/var/log/app.log"
        (TailWatcherState.mk
          [("/var/log/app.log",
            ⟨"n1", "/var/log/app.log", 0, none, []⟩)]
          [("/var/log/app.log", [1, 2])]).watched).isSome = true) ∧
    (getVal "/var/log/app.log"
        (removeFileWatch
          (TailWatcherState.mk
            [("/var/log/app.log",
              ⟨"n1", "/var/log/app.log", 0, none, []⟩)]
            [("/var/log/app.log", [1, 2])])
          "n1" "/var/log/app.log").watched = none ∧
     getVal "/var/log/app.log"
        (removeFileWatch
          (TailWatcherState.mk
            [("/var/log/app.log",
              ⟨"n1", "/var/log/app.log", 0, none, []⟩)]
            [("/var/log/app.log", [1, 2])])
          "n1" "/var/log/app.log").callbacks = none) :=
  ⟨by decide,
   C10_remove_watch_ignores_node_id.2.1
     (TailWatcherState.mk
       [("/var/log/app.log", ⟨"n1", "/var/log/app.log", 0, none, []⟩)]
       [("/var/log/app.log", [1, 2])])
     "n1" "/var/log/app.log" (by decide)⟩

/-- Every trigger row sharing the marked id is processed after
`mark_webhook_processed`. -/
theorem markWebhookProcessed_sets (s : WebhookState) (tid : String) :
    ∀ r ∈ (markWebhookProcessed s tid).triggers,
      r.id = tid → r.processed = true := by
  intro r hr hid
  unfold markWebhookProcessed at hr
  simp only [List.mem_map] at hr
  obtain ⟨r0, _, hmap⟩ := hr
  by_cases h0 : r0.id = tid
  · rw [if_pos h0] at hmap
    rw [← hmap]
  · rw [if_neg h0] at hmap
    exact absurd (hmap ▸ hid) h0

/-- `_process_webhook_trigger` never clears a processed flag: if every row
with a given id is processed, that stays true. -/
theorem processWebhookTrigger_mono (s : WebhookState) (t : WebhookTriggerM)
    (tid : String)
    (h : ∀ r ∈ s.triggers, r.id = tid → r.processed = true) :
    ∀ r ∈ (processWebhookTrigger s t).triggers,
      r.id = tid → r.processed = true := by
  unfold processWebhookTrigger
  cases hv : getVal t.nodeId s.nodeTypes with
  | none => exact h
  | some nt =>
    cases nt with
    | webhook =>
      intro r hr hid
      unfold markWebhookProcessed at hr
      simp only [List.mem_map] at hr
      obtain ⟨r0, hr0, hmap⟩ := hr
      by_cases h0 : r0.id = webhookTriggerId t.nodeId t.timestampMs
      · rw [if_pos h0] at hmap
        rw [← hmap]
      · rw [if_neg h0] at hmap
        exact h r0 hr0 (hmap ▸ hid) ▸ (hmap ▸ rfl)
    | template => exact h
    | program => exact h
    | file => exact h
    | manual => exact h
    | tail => exact h

/-- Draining any further triggers preserves "every row with this id is
processed". -/
theorem foldl_processWebhookTrigger_mono (tid : String) :
    ∀ (ts : List WebhookTriggerM) (s : WebhookState),
      (∀ r ∈ s.triggers, r.id = tid → r.processed = true) →
      ∀ r ∈ (ts.foldl processWebhookTrigger s).triggers,
        r.id = tid → r.processed = true
  | [], s, h => h
  | t :: ts, s, h =>
    foldl_processWebhookTrigger_mono tid ts (processWebhookTrigger s t)
      (processWebhookTrigger_mono s t tid h)

/-- C8: a webhook trigger stored for an existing webhook node is drained
exactly once — processing it flips the processed flag of its row (the id
recomputed from node id and timestamp matches the stored id), and after
any number of further drain steps no pending-trigger poll returns a row
with its id, so it is never reprocessed. -/
theorem C8_webhook_trigger_drained_once (s : WebhookState) (r : TriggerRow)
    (hmem : r ∈ s.triggers)
    (hid : r.id = webhookTriggerId r.nodeId r.timestampMs)
    (hnode : getVal r.nodeId s.nodeTypes = some NodeTypeM.webhook) :
    (∀ r' ∈ (processWebhookTrigger s ⟨r.nodeId, r.timestampMs⟩).triggers,
        r'.id = r.id → r'.processed = true) ∧
    (∀ further : List WebhookTriggerM,
        ∀ r' ∈ pendingRows (further.foldl processWebhookTrigger
            (processWebhookTrigger s ⟨r.nodeId, r.timestampMs⟩)),
          r'.id ≠ r.id) := by
  have hstep :
      ∀ r' ∈ (processWebhookTrigger s ⟨r.nodeId, r.timestampMs⟩).triggers,
        r'.id = r.id → r'.processed = true := by
    unfold processWebhookTrigger
    simp only [hnode]
    intro r' hr' hid'
    exact markWebhookProcessed_sets s _ r' hr' (hid ▸ hid')
  refine ⟨hstep, ?_⟩
  intro further r' hr' hcontra
  have hall := foldl_processWebhookTrigger_mono r.id further _ hstep
  unfold pendingRows at hr'
  rw [List.mem_filter] at hr'
  have hproc := hall r' hr'.1 hcontra
  rw [hproc] at hr'
  simp at hr'

/-- C8 (witness): a concrete queue with one stored trigger for webhook
node `"w1"`; after the drain step its row is processed and no further
drain sequence ever polls it again. -/
theorem C8_webhook_trigger_drained_once_witness :
    (TriggerRow.mk "w1_1700000000000" "w1" 1700000000000 false ∈
      (WebhookState.mk [⟨"w1_1700000000000", "w1", 1700000000000, false⟩]
        [("w1", NodeTypeM.webhook)]).triggers) ∧
    ((TriggerRow.mk "w1_1700000000000" "w1" 1700000000000 false).id =
      webhookTriggerId "w1" 1700000000000) ∧
    (getVal "w1"
      (WebhookState.mk [⟨"w1_1700000000000", "w1", 1700000000000, false⟩]
        [("w1", NodeTypeM.webhook)]).nodeTypes = some NodeTypeM.webhook) ∧
    ((∀ r' ∈ (processWebhookTrigger
          (WebhookState.mk [⟨"w1_1700000000000", "w1", 1700000000000, false⟩]
            [("w1", NodeTypeM.webhook)])
          ⟨"w1", 1700000000000⟩).triggers,
        r'.id = "w1_1700000000000" → r'.processed = true) ∧
     (∀ further : List WebhookTriggerM,
        ∀ r' ∈ pendingRows (further.foldl processWebhookTrigger
            (processWebhookTrigger
              (WebhookState.mk
                [⟨"w1_1700000000000", "w1", 1700000000000, false⟩]
                [("w1", NodeTypeM.webhook)])
              ⟨"w1", 1700000000000⟩)),
          r'.id ≠ "w1_1700000000000")) :=
  ⟨by decide, by decide, by decide,
   C8_webhook_trigger_drained_once
     (WebhookState.mk [⟨"w1_1700000000000", "w1", 1700000000000, false⟩]
       [("w1", NodeTypeM.webhook)])
     ⟨"w1_1700000000000", "w1", 1700000000000, false⟩
     (by decide) (by decide) (by decide)⟩

/-- C6: when the process outlasts the configured timeout, the executor
kills the process and awaits (reaps) it — the event sequence is spawn,
kill, reap, and only then is the timeout error produced as the call's
result; the error propagates out of the program build, and the node-value
cache is left exactly as it was: no NodeValue is stored for any output of
that build. -/
theorem C6_timeout_kill_reap_no_value
    (cfg : NodeConfigM) (beh : ProcBehavior) (t : Nat)
    (nodeId : String) (values : List NodeValueM)
    (fileContent : String → String)
    (hcmd : ¬ (cfg.scriptPath = none ∧ cfg.command = none))
    (ht : cfg.timeout = some t)
    (hdur : beh.duration > t) :
    executeProgram cfg beh =
      (.error (.timeout (some t)),
       [ExecEvent.spawn, ExecEvent.killProc, ExecEvent.waitProc]) ∧
    buildProgramInstance cfg beh nodeId values fileContent =
      (.error (.timeout (some t)), values) := by
  have hexec : executeProgram cfg beh =
      (.error (.timeout (some t)),
       [ExecEvent.spawn, ExecEvent.killProc, ExecEvent.waitProc]) := by
    unfold executeProgram
    rw [if_neg hcmd, ht]
    simp [hdur]
  refine ⟨hexec, ?_⟩
  unfold buildProgramInstance
  rw [hexec]

/-- C6 (witness): the spec's own test scenario — declared output
`result.json`, timeout 5 seconds, a script that would run 10 seconds. -/
theorem C6_timeout_kill_reap_no_value_witness :
    (¬ ((NodeConfigM.mk NodeTypeM.program [] ["result.json"]
          OutputModeM.replace none (some "/work/slow.py") none
          (some 5)).scriptPath = none ∧
        (NodeConfigM.mk NodeTypeM.program [] ["result.json"]
          OutputModeM.replace none (some "/work/slow.py") none
          (some 5)).command = none)) ∧
    ((NodeConfigM.mk NodeTypeM.program [] ["result.json"]
        OutputModeM.replace none (some "/work/slow.py") none
        (some 5)).timeout = some 5) ∧
    ((ProcBehavior.mk 10 0 ["result.json"]).duration > 5) ∧
    (executeProgram
        (NodeConfigM.mk NodeTypeM.program [] ["result.json"]
          OutputModeM.replace none (some "/work/slow.py") none (some 5))
        (ProcBehavior.mk 10 0 ["result.json"]) =
      (.error (.timeout (some 5)),
       [ExecEvent.spawn, ExecEvent.killProc, ExecEvent.waitProc]) ∧
     buildProgramInstance
        (NodeConfigM.mk NodeTypeM.program [] ["result.json"]
          OutputModeM.replace none (some "/work/slow.py") none (some 5))
        (ProcBehavior.mk 10 0 ["result.json"]) "prog-node" [] (fun _ => "") =
      (.error (.timeout (some 5)), [])) :=
  ⟨by decide, by decide, by decide,
   C6_timeout_kill_reap_no_value
     (NodeConfigM.mk NodeTypeM.program [] ["result.json"]
       OutputModeM.replace none (some "/work/slow.py") none (some 5))
     (ProcBehavior.mk 10 0 ["result.json"]) 5 "prog-node" [] (fun _ => "")
     (by decide) (by decide) (by decide)⟩

/-- C9 (counterexample): creating an instance for a node id that is not
registered does not fail — on an empty daemon state, `create_instance`
returns the fresh instance id successfully and the instance is persisted,
contradicting "fails with a not-found error rather than persisting a new
instance". -/
theorem C9_counterexample_unknown_node_persists :
    (createInstance (fun _ _ => .ok ()) 0 (DaemonState.mk [] [] [] [])
        "ghost" "/tmp/out.txt" [] "inst-1").2 = .ok "inst-1" ∧
    (createInstance (fun _ _ => .ok ()) 0 (DaemonState.mk [] [] [] [])
        "ghost" "/tmp/out.txt" [] "inst-1").1.instances =
      [InstanceRec.mk "inst-1" "ghost" [] "/tmp/out.txt" none 0] := by
  refine ⟨rfl, rfl⟩

/-- C9 (amended): `create_instance` performs no validation of the node id.
The instance row is persisted and indexed before the node lookup; when the
node id is unknown the lookup merely skips watch setup and the initial
build, the Info log is written, and the fresh instance id is returned
successfully. -/
theorem C9_amended_create_instance_no_validation
    (builder : NodeRec → InstanceRec → Except String Unit) (now : Nat)
    (s : DaemonState) (nodeId outputPath newId : String)
    (inputValues : List (String × PyVal))
    (h : findNode s nodeId = none) :
    createInstance builder now s nodeId outputPath inputValues newId =
      (addLog
        { s with instances := s.instances ++
            [{ id := newId, nodeId := nodeId, inputValues := inputValues,
               outputPath := outputPath, lastBuilt := none, buildCount := 0 }] }
        nodeId LogLevelM.info ("Instance created: " ++ newId),
       .ok newId) := by
  unfold createInstance
  have hf : findNode
      { s with instances := s.instances ++
          [{ id := newId, nodeId := nodeId, inputValues := inputValues,
             outputPath := outputPath, lastBuilt := none, buildCount := 0 }] }
      nodeId = none := h
  simp only [hf]

/-- C9 (witness): the amended theorem at a concrete state holding one
unrelated node. -/
theorem C9_amended_create_instance_no_validation_witness :
    (findNode
        (DaemonState.mk
          [⟨"other", NodeConfigM.mk NodeTypeM.template [] ["o"]
              OutputModeM.replace (some "body") none none (some 300),
            some "/cfg/other.yaml", 3⟩]
          [] [] [])
        "missing" = none) ∧
    (createInstance (fun _ _ => .error "never called") 7
        (DaemonState.mk
          [⟨"other", NodeConfigM.mk NodeTypeM.template [] ["o"]
              OutputModeM.replace (some "body") none none (some 300),
            some "/cfg/other.yaml", 3⟩]
          [] [] [])
        "missing" "/tmp/x" [] "inst-9" =
      (addLog
        { DaemonState.mk
            [⟨"other", NodeConfigM.mk NodeTypeM.template [] ["o"]
                OutputModeM.replace (some "body") none none (some 300),
              some "/cfg/other.yaml", 3⟩]
            [] [] [] with
          instances := (DaemonState.mk
            [⟨"other", NodeConfigM.mk NodeTypeM.template [] ["o"]
                OutputModeM.replace (some "body") none none (some 300),
              some "/cfg/other.yaml", 3⟩]
            [] [] []).instances ++
            [{ id := "inst-9", nodeId := "missing", inputValues := [],
               outputPath := "/tmp/x", lastBuilt := none, buildCount := 0 }] }
        "missing" LogLevelM.info ("Instance created: " ++ "inst-9"),
       .ok "inst-9")) :=
  ⟨by decide,
   C9_amended_create_instance_no_validation (fun _ _ => .error "never called")
     7 _ "missing" "/tmp/x" "inst-9" [] (by decide)⟩

/-- After filtering out every node with a given id, a freshly appended
node with that id is the one found. -/
theorem findNode_filter_append (k : String) (node : NodeRec)
    (hid : node.id = k) :
    ∀ (l : List NodeRec),
      (l.filter (fun n => n.id ≠ k) ++ [node]).find?
          (fun n => n.id == k) = some node := by
  intro l
  induction l with
  | nil => simp [List.find?_cons, hid]
  | cons n rest ih =>
    by_cases h : n.id = k
    · simp only [List.filter_cons]
      rw [show (decide (n.id ≠ k)) = false by simp [h]]
      exact ih
    · simp only [List.filter_cons]
      rw [show (decide (n.id ≠ k)) = true by simp [h], if_pos rfl]
      rw [List.cons_append, List.find?_cons]
      rw [show (n.id == k) = false by simp [h]]
      exact ih

/-- C3 (counterexample): a config-file change is handled by unregistering
and re-registering the node.  On a concrete state with one template node
(created_at 5) and one built instance with its output artifact, handling a
change of the node's own config path yields a node whose created_at is the
reload time 9, no instances at all, and no surviving output artifact —
contradicting "same created_at" and "every existing instance of the node
is rebuilt (instances and their output artifacts survive the reload)". -/
theorem C3_counterexample_reload_deletes_instances :
    (findNode
        (handleFileChange (fun _ _ => .ok ()) (fun _ => "n1")
          (fun _ => NodeConfigM.mk NodeTypeM.template [] ["out.txt"]
            OutputModeM.replace (some "Hello") none none (some 300))
          (fun p => p) 9
          (DaemonState.mk
            [⟨"n1",
              NodeConfigM.mk NodeTypeM.template [] ["out.txt"]
                OutputModeM.replace (some "Hello") none none (some 300),
              some "/cfg/t.yaml", 5⟩]
            [⟨"i1", "n1", [], "/home/out", some 4, 3⟩]
            ["/home/out"] [])
          "n1" "/cfg/t.yaml").1 "n1" =
      some ⟨"n1",
        NodeConfigM.mk NodeTypeM.template [] ["out.txt"]
          OutputModeM.replace (some "Hello") none none (some 300),
        some "/cfg/t.yaml", 9⟩) ∧
    (9 ≠ 5) ∧
    ((handleFileChange (fun _ _ => .ok ()) (fun _ => "n1")
        (fun _ => NodeConfigM.mk NodeTypeM.template [] ["out.txt"]
          OutputModeM.replace (some "Hello") none none (some 300))
        (fun p => p) 9
        (DaemonState.mk
          [⟨"n1",
            NodeConfigM.mk NodeTypeM.template [] ["out.txt"]
              OutputModeM.replace (some "Hello") none none (some 300),
            some "/cfg/t.yaml", 5⟩]
          [⟨"i1", "n1", [], "/home/out", some 4, 3⟩]
          ["/home/out"] [])
        "n1" "/cfg/t.yaml").1.instances = []) ∧
    ((handleFileChange (fun _ _ => .ok ()) (fun _ => "n1")
        (fun _ => NodeConfigM.mk NodeTypeM.template [] ["out.txt"]
          OutputModeM.replace (some "Hello") none none (some 300))
        (fun p => p) 9
        (DaemonState.mk
          [⟨"n1",
            NodeConfigM.mk NodeTypeM.template [] ["out.txt"]
              OutputModeM.replace (some "Hello") none none (some 300),
            some "/cfg/t.yaml", 5⟩]
          [⟨"i1", "n1", [], "/home/out", some 4, 3⟩]
          ["/home/out"] [])
        "n1" "/cfg/t.yaml").1.artifacts = []) :=
  ⟨rfl, by decide, rfl, rfl⟩

/-- C3 (amended): handling a change of a node's own config path (that is
not also its program script) unregisters and re-registers the node: the
node id is preserved (the id is the deterministic digest of the config
path), but the stored created_at becomes the reload time, every instance
of the node is deleted rather than rebuilt, and each former instance's
output artifact is removed. -/
theorem C3_amended_reload_replaces_node
    (builder : NodeRec → InstanceRec → Except String Unit)
    (digest : String → String) (loadConfig : String → NodeConfigM)
    (resolvePath : String → String) (now : Nat) (s : DaemonState)
    (nodeId filePath : String) (node : NodeRec)
    (hfind : findNode s nodeId = some node)
    (hcfg : node.configPath = some filePath)
    (hguard : ¬ (node.config.nodeType = NodeTypeM.program ∧
        (node.config.scriptPath.map resolvePath) = some (resolvePath filePath)))
    (hid : digest filePath = nodeId) :
    (findNode
        (handleFileChange builder digest loadConfig resolvePath now s
          nodeId filePath).1 nodeId =
      some { id := nodeId, config := loadConfig filePath,
             configPath := some filePath, createdAt := now }) ∧
    ((handleFileChange builder digest loadConfig resolvePath now s
        nodeId filePath).1.instances =
      s.instances.filter (fun i => i.nodeId ≠ nodeId)) ∧
    (∀ i ∈ s.instances, i.nodeId = nodeId →
      i.outputPath ∉
        (handleFileChange builder digest loadConfig resolvePath now s
          nodeId filePath).1.artifacts) := by
  have hf2 : findNode
      (addLog s nodeId LogLevelM.debug ("File change detected: " ++ filePath))
      nodeId = some node := hfind
  unfold handleFileChange
  simp only [hf2]
  rw [if_pos hcfg, if_neg hguard]
  unfold registerNode unregisterNode addLog
  refine ⟨?_, ?_, ?_⟩
  · unfold findNode
    simp only [hid]
    exact findNode_filter_append nodeId _ rfl _
  · rfl
  · intro i hi hni hart
    simp only [List.mem_filter, decide_eq_true_eq] at hart
    apply hart.2
    apply List.elem_eq_true_of_mem
    simp only [List.mem_map]
    exact ⟨i, by simp [List.mem_filter, hi, hni], rfl⟩

/-- C3 (witness): the amended theorem at a concrete state with a webhook
node and two instances. -/
theorem C3_amended_reload_replaces_node_witness :
    (findNode
        (DaemonState.mk
          [⟨"w9",
            NodeConfigM.mk NodeTypeM.webhook [] ["hooked"]
              OutputModeM.append none none none (some 300),
            some "/cfg/hook.yaml", 2⟩]
          [⟨"iA", "w9", [], "/outA", none, 0⟩,
           ⟨"iB", "w9", [], "/outB", some 1, 1⟩]
          ["/outA", "/outB"] []) "w9" =
      some ⟨"w9",
        NodeConfigM.mk NodeTypeM.webhook [] ["hooked"]
          OutputModeM.append none none none (some 300),
        some "/cfg/hook.yaml", 2⟩) ∧
    ((some "/cfg/hook.yaml" : Option String) = some "/cfg/hook.yaml") ∧
    (¬ (NodeTypeM.webhook = NodeTypeM.program ∧
        (Option.map (fun p => p) (none : Option String)) =
          some "/cfg/hook.yaml")) ∧
    ((fun _ => "w9") "/cfg/hook.yaml" = "w9") ∧
    (findNode
        (handleFileChange (fun _ _ => .ok ()) (fun _ => "w9")
          (fun _ => NodeConfigM.mk NodeTypeM.webhook [] ["hooked"]
            OutputModeM.append none none none (some 60))
          (fun p => p) 11
          (DaemonState.mk
            [⟨"w9",
              NodeConfigM.mk NodeTypeM.webhook [] ["hooked"]
                OutputModeM.append none none none (some 300),
              some "/cfg/hook.yaml", 2⟩]
            [⟨"iA", "w9", [], "/outA", none, 0⟩,
             ⟨"iB", "w9", [], "/outB", some 1, 1⟩]
            ["/outA", "/outB"] [])
          "w9" "/cfg/hook.yaml").1 "w9" =
      some { id := "w9",
             config := NodeConfigM.mk NodeTypeM.webhook [] ["hooked"]
               OutputModeM.append none none none (some 60),
             configPath := some "/cfg/hook.yaml", createdAt := 11 }) := by
  refine ⟨by decide, rfl, by decide, rfl, ?_⟩
  exact (C3_amended_reload_replaces_node (fun _ _ => .ok ()) (fun _ => "w9")
    (fun _ => NodeConfigM.mk NodeTypeM.webhook [] ["hooked"]
      OutputModeM.append none none none (some 60))
    (fun p => p) 11
    (DaemonState.mk
      [⟨"w9",
        NodeConfigM.mk NodeTypeM.webhook [] ["hooked"]
          OutputModeM.append none none none (some 300),
        some "/cfg/hook.yaml", 2⟩]
      [⟨"iA", "w9", [], "/outA", none, 0⟩,
       ⟨"iB", "w9", [], "/outB", some 1, 1⟩]
      ["/outA", "/outB"] [])
    "w9" "/cfg/hook.yaml"
    ⟨"w9",
      NodeConfigM.mk NodeTypeM.webhook [] ["hooked"]
        OutputModeM.append none none none (some 300),
      some "/cfg/hook.yaml", 2⟩
    (by decide) rfl (by decide) rfl).1

/-- A successful type-specific build: `_build_instance` logs at Debug and
updates the instance metadata. -/
theorem buildInstance_ok (builder : NodeRec → InstanceRec → Except String Unit)
    (now : Nat) (node : NodeRec) (i : InstanceRec)
    (h : builder node i = .ok ()) :
    buildInstance builder now node i =
      (.ok { i with lastBuilt := some now, buildCount := i.buildCount + 1 },
       [⟨.debug, "Building instance: " ++ i.id⟩]) := by
  unfold buildInstance
  rw [h]

/-- A failing type-specific build: `_build_instance` logs at Error and
re-raises the exception; the instance metadata is not updated. -/
theorem buildInstance_error (builder : NodeRec → InstanceRec → Except String Unit)
    (now : Nat) (node : NodeRec) (i : InstanceRec) (e : String)
    (h : builder node i = .error e) :
    buildInstance builder now node i =
      (.error e,
       [⟨.debug, "Building instance: " ++ i.id⟩,
        ⟨.error, "Build failed for instance " ++ i.id ++ ": " ++ e⟩]) := by
  unfold buildInstance
  rw [h]

/-- The rebuild loop up to and including the first failing instance: the
instances before it (when they build cleanly) get their metadata updated,
the failing instance aborts the loop with its exception, and every
instance after it is left untouched. -/
theorem rebuildList_append_error
    (builder : NodeRec → InstanceRec → Except String Unit) (now : Nat)
    (node : NodeRec) (bad : InstanceRec) (post : List InstanceRec)
    (e : String)
    (hbad : bad.nodeId = node.id) (hbuild : builder node bad = .error e) :
    ∀ (pre : List InstanceRec),
      (∀ i ∈ pre, builder node i = .ok ()) →
      rebuildList builder now node (pre ++ bad :: post) =
        (pre.map (rebuildUpd now node) ++ bad :: post,
         (pre.filter (fun i => i.nodeId = node.id)).map
             (fun i => LogEntryM.mk .debug ("Building instance: " ++ i.id))
           ++ [⟨.debug, "Building instance: " ++ bad.id⟩,
               ⟨.error, "Build failed for instance " ++ bad.id ++ ": " ++ e⟩],
         some e)
  | [], _ => by
    rw [List.nil_append]
    unfold rebuildList
    rw [if_pos hbad, buildInstance_error builder now node bad e hbuild]
    simp
  | i :: pre', hpre => by
    have ih := rebuildList_append_error builder now node bad post e hbad
      hbuild pre' (fun j hj => hpre j (List.mem_cons_of_mem i hj))
    rw [List.cons_append]
    unfold rebuildList
    by_cases hni : i.nodeId = node.id
    · rw [if_pos hni,
        buildInstance_ok builder now node i (hpre i (List.mem_cons_self i pre'))]
      rw [ih]
      simp only [List.map_cons, List.filter_cons, List.cons_append]
      rw [show (decide (i.nodeId = node.id)) = true by simp [hni]]
      simp [rebuildUpd, hni]
    · rw [if_neg hni]
      rw [ih]
      simp only [List.map_cons, List.filter_cons]
      rw [show (decide (i.nodeId = node.id)) = false by simp [hni]]
      simp [rebuildUpd, hni]

/-- C4 (counterexample): a node with two instances; the first instance's
build fails.  `rebuild_node_instances` logs that failure at Error but
re-raises it — the call returns the exception and the second instance is
left completely unbuilt (its metadata is untouched), contradicting "logged
at Error and swallowed … the remaining instances of that node … are still
rebuilt". -/
theorem C4_counterexample_error_stops_rebuild :
    (rebuildNodeInstances
        (fun _ i => if i.id = "i1" then .error "boom" else .ok ()) 7
        (DaemonState.mk
          [⟨"n1",
            NodeConfigM.mk NodeTypeM.template [] ["out"]
              OutputModeM.replace (some "Hi") none none (some 300),
            some "/cfg/a.yaml", 1⟩]
          [⟨"i1", "n1", [], "/o1", none, 0⟩, ⟨"i2", "n1", [], "/o2", none, 0⟩]
          [] [])
        "n1").2 = some "boom" ∧
    (rebuildNodeInstances
        (fun _ i => if i.id = "i1" then .error "boom" else .ok ()) 7
        (DaemonState.mk
          [⟨"n1",
            NodeConfigM.mk NodeTypeM.template [] ["out"]
              OutputModeM.replace (some "Hi") none none (some 300),
            some "/cfg/a.yaml", 1⟩]
          [⟨"i1", "n1", [], "/o1", none, 0⟩, ⟨"i2", "n1", [], "/o2", none, 0⟩]
          [] [])
        "n1").1.instances =
      [⟨"i1", "n1", [], "/o1", none, 0⟩, ⟨"i2", "n1", [], "/o2", none, 0⟩] ∧
    (("n1", LogEntryM.mk .error "Build failed for instance i1: boom") ∈
      (rebuildNodeInstances
        (fun _ i => if i.id = "i1" then .error "boom" else .ok ()) 7
        (DaemonState.mk
          [⟨"n1",
            NodeConfigM.mk NodeTypeM.template [] ["out"]
              OutputModeM.replace (some "Hi") none none (some 300),
            some "/cfg/a.yaml", 1⟩]
          [⟨"i1", "n1", [], "/o1", none, 0⟩, ⟨"i2", "n1", [], "/o2", none, 0⟩]
          [] [])
        "n1").1.logs) ∧
    (some "boom" ≠ (none : Option String)) :=
  ⟨rfl, rfl, by decide, by decide⟩

/-- C4 (amended): a build error raised while rebuilding one instance of a
node is logged at Error but re-raised: it propagates out of
`rebuild_node_instances` (and hence out of the watcher-triggered
`handle_file_change` that called it), so the instances after the failing
one are not rebuilt in that cycle, while instances before it were; the
explicit caller-initiated path behaves identically — the code does not
distinguish the two. -/
theorem C4_amended_watcher_error_propagates
    (builder : NodeRec → InstanceRec → Except String Unit) (now : Nat)
    (s : DaemonState) (nodeId : String) (node : NodeRec)
    (pre post : List InstanceRec) (bad : InstanceRec) (e : String)
    (hfind : findNode s nodeId = some node)
    (hinsts : s.instances = pre ++ bad :: post)
    (hpre : ∀ i ∈ pre, builder node i = .ok ())
    (hbad : bad.nodeId = node.id)
    (hbuild : builder node bad = .error e) :
    (rebuildNodeInstances builder now s nodeId).2 = some e ∧
    (rebuildNodeInstances builder now s nodeId).1.instances =
      pre.map (rebuildUpd now node) ++ bad :: post ∧
    ((nodeId, LogEntryM.mk .error
        ("Build failed for instance " ++ bad.id ++ ": " ++ e)) ∈
      (rebuildNodeInstances builder now s nodeId).1.logs) ∧
    (∀ (digest : String → String) (loadConfig : String → NodeConfigM)
        (resolvePath : String → String) (filePath : String),
      node.configPath ≠ some filePath →
      (handleFileChange builder digest loadConfig resolvePath now s
          nodeId filePath).2 = some e) := by
  have hlist := rebuildList_append_error builder now node bad post e hbad
    hbuild pre hpre
  have hmain : rebuildNodeInstances builder now s nodeId =
      ({ s with
          instances := pre.map (rebuildUpd now node) ++ bad :: post,
          logs := s.logs ++
            (((pre.filter (fun i => i.nodeId = node.id)).map
                (fun i => LogEntryM.mk .debug ("Building instance: " ++ i.id))
              ++ [⟨.debug, "Building instance: " ++ bad.id⟩,
                  ⟨.error, "Build failed for instance " ++ bad.id ++ ": " ++ e⟩] :
                List LogEntryM)).map
              (fun l => (nodeId, l)) },
       some e) := by
    unfold rebuildNodeInstances
    simp only [hfind, hinsts, hlist]
  refine ⟨by rw [hmain], by rw [hmain], ?_, ?_⟩
  · rw [hmain]
    simp only [List.map_append, List.map_cons]
    refine List.mem_append_right _ (List.mem_append_right _ ?_)
    simp
  · intro digest loadConfig resolvePath filePath hpath
    have hf2 : findNode
        (addLog s nodeId LogLevelM.debug
          ("File change detected: " ++ filePath)) nodeId = some node := hfind
    unfold handleFileChange
    simp only [hf2]
    rw [if_neg hpath]
    have hlist2 : rebuildList builder now node
        (addLog s nodeId LogLevelM.debug
          ("File change detected: " ++ filePath)).instances =
        (pre.map (rebuildUpd now node) ++ bad :: post,
         (pre.filter (fun i => i.nodeId = node.id)).map
             (fun i => LogEntryM.mk .debug ("Building instance: " ++ i.id))
           ++ [⟨.debug, "Building instance: " ++ bad.id⟩,
               ⟨.error, "Build failed for instance " ++ bad.id ++ ": " ++ e⟩],
         some e) := by
      show rebuildList builder now node s.instances = _
      rw [hinsts, hlist]
    unfold rebuildNodeInstances
    simp only [hf2, hlist2]

/-- C4 (witness): the amended theorem at a concrete state — instance
`"ok0"` builds first and succeeds, `"bd1"` fails, `"un2"` is never
attempted; the failure also propagates out of a `handle_file_change` for
an ordinary input path. -/
theorem C4_amended_watcher_error_propagates_witness :
    (findNode
        (DaemonState.mk
          [⟨"nX",
            NodeConfigM.mk NodeTypeM.template [] ["out"]
              OutputModeM.replace (some "T") none none (some 300),
            some "/cfg/x.yaml", 1⟩]
          [⟨"ok0", "nX", [], "/a", none, 0⟩, ⟨"bd1", "nX", [], "/b", none, 0⟩,
           ⟨"un2", "nX", [], "/c", none, 0⟩]
          [] []) "nX" =
      some ⟨"nX",
        NodeConfigM.mk NodeTypeM.template [] ["out"]
          OutputModeM.replace (some "T") none none (some 300),
        some "/cfg/x.yaml", 1⟩) ∧
    ((rebuildNodeInstances
        (fun _ i => if i.id = "bd1" then .error "exec failed" else .ok ()) 4
        (DaemonState.mk
          [⟨"nX",
            NodeConfigM.mk NodeTypeM.template [] ["out"]
              OutputModeM.replace (some "T") none none (some 300),
            some "/cfg/x.yaml", 1⟩]
          [⟨"ok0", "nX", [], "/a", none, 0⟩, ⟨"bd1", "nX", [], "/b", none, 0⟩,
           ⟨"un2", "nX", [], "/c", none, 0⟩]
          [] [])
        "nX").2 = some "exec failed" ∧
     (rebuildNodeInstances
        (fun _ i => if i.id = "bd1" then .error "exec failed" else .ok ()) 4
        (DaemonState.mk
          [⟨"nX",
            NodeConfigM.mk NodeTypeM.template [] ["out"]
              OutputModeM.replace (some "T") none none (some 300),
            some "/cfg/x.yaml", 1⟩]
          [⟨"ok0", "nX", [], "/a", none, 0⟩, ⟨"bd1", "nX", [], "/b", none, 0⟩,
           ⟨"un2", "nX", [], "/c", none, 0⟩]
          [] [])
        "nX").1.instances =
      [⟨"ok0", "nX", [], "/a", none, 0⟩].map
        (rebuildUpd 4
          ⟨"nX",
            NodeConfigM.mk NodeTypeM.template [] ["out"]
              OutputModeM.replace (some "T") none none (some 300),
            some "/cfg/x.yaml", 1⟩) ++
        ⟨"bd1", "nX", [], "/b", none, 0⟩ :: [⟨"un2", "nX", [], "/c", none, 0⟩]) := by
  refine ⟨by decide, ?_⟩
  have h := C4_amended_watcher_error_propagates
    (fun _ i => if i.id = "bd1" then .error "exec failed" else .ok ()) 4
    (DaemonState.mk
      [⟨"nX",
        NodeConfigM.mk NodeTypeM.template [] ["out"]
          OutputModeM.replace (some "T") none none (some 300),
        some "/cfg/x.yaml", 1⟩]
      [⟨"ok0", "nX", [], "/a", none, 0⟩, ⟨"bd1", "nX", [], "/b", none, 0⟩,
       ⟨"un2", "nX", [], "/c", none, 0⟩]
      [] [])
    "nX"
    ⟨"nX",
      NodeConfigM.mk NodeTypeM.template [] ["out"]
        OutputModeM.replace (some "T") none none (some 300),
      some "/cfg/x.yaml", 1⟩
    [⟨"ok0", "nX", [], "/a", none, 0⟩] [⟨"un2", "nX", [], "/c", none, 0⟩]
    ⟨"bd1", "nX", [], "/b", none, 0⟩ "exec failed"
    (by decide) rfl
    (by intro i hi; simp only [List.mem_singleton] at hi; subst hi; rfl)
    (by decide) rfl
  exact ⟨h.1, h.2.1⟩

/-- When the explicit value is absent, no truthy source is configured and
no default is present, resolution raises the required-input error. -/
theorem resolveInputValue_required_missing
    (resolveRef : String → Except String PyVal)
    (fileExists : String → Bool) (resolvePath : String → String)
    (instanceValues : List (String × PyVal)) (name : String)
    (spec : InputSpecM)
    (hget : getVal name instanceValues = none)
    (hsrc : sourceTruthy spec.source = false)
    (hdef : spec.default = PyVal.pnone) :
    resolveInputValue resolveRef fileExists resolvePath instanceValues
        name spec =
      .error ("Required input '" ++ name ++ "' not provided") := by
  unfold resolveInputValue
  simp only [hget, hsrc, Bool.false_eq_true, if_false]
  rw [if_neg (by simp [hdef])]

/-- C5: inputs are resolved in the order explicit instance value, then a
truthy `source` reference (whose failure logs a Warning and falls back to
the default — even a `None` default), then a present default; when the
explicit value is absent, no truthy source is configured and no default
exists, the required-input error is raised — in particular an instance
created omitting such an input fails its initial build with that error,
which propagates out of `create_instance`. -/
theorem C5_input_resolution_order
    (resolveRef : String → Except String PyVal)
    (fileExists : String → Bool) (resolvePath : String → String) :
    (∀ (name : String) (v : PyVal) (rest : List (String × PyVal))
        (spec : InputSpecM),
      resolveInputValue resolveRef fileExists resolvePath
          ((name, v) :: rest) name spec =
        .ok (adjustFileValue fileExists resolvePath spec v, [])) ∧
    (∀ (instanceValues : List (String × PyVal)) (name src : String)
        (spec : InputSpecM) (v : PyVal),
      getVal name instanceValues = none →
      spec.source = some src → src ≠ "" →
      resolveRef src = .ok v →
      resolveInputValue resolveRef fileExists resolvePath instanceValues
          name spec =
        .ok (adjustFileValue fileExists resolvePath spec v, [])) ∧
    (∀ (instanceValues : List (String × PyVal)) (name src e : String)
        (spec : InputSpecM),
      getVal name instanceValues = none →
      spec.source = some src → src ≠ "" →
      resolveRef src = .error e →
      resolveInputValue resolveRef fileExists resolvePath instanceValues
          name spec =
        .ok (adjustFileValue fileExists resolvePath spec spec.default,
             [⟨.warning, "Failed to resolve reference: " ++ e⟩])) ∧
    (∀ (instanceValues : List (String × PyVal)) (name : String)
        (spec : InputSpecM),
      getVal name instanceValues = none →
      sourceTruthy spec.source = false →
      spec.default ≠ PyVal.pnone →
      resolveInputValue resolveRef fileExists resolvePath instanceValues
          name spec =
        .ok (adjustFileValue fileExists resolvePath spec spec.default, [])) ∧
    (∀ (instanceValues : List (String × PyVal)) (name : String)
        (spec : InputSpecM),
      getVal name instanceValues = none →
      sourceTruthy spec.source = false →
      spec.default = PyVal.pnone →
      resolveInputValue resolveRef fileExists resolvePath instanceValues
          name spec =
        .error ("Required input '" ++ name ++ "' not provided")) ∧
    (∀ (s : DaemonState) (nodeId outputPath newId : String) (now : Nat)
        (name : String) (spec : InputSpecM) (node : NodeRec),
      findNode s nodeId = some node →
      node.config.inputs = [(name, spec)] →
      sourceTruthy spec.source = false →
      spec.default = PyVal.pnone →
      (createInstance
        (fun n i =>
          match resolveInputValues resolveRef fileExists resolvePath
              n.config.inputs i.inputValues with
          | .error e => .error e
          | .ok _ => .ok ())
        now s nodeId outputPath [] newId).2 =
        .error ("Required input '" ++ name ++ "' not provided")) := by
  refine ⟨?_, ?_, ?_, ?_, ?_, ?_⟩
  · intro name v rest spec
    unfold resolveInputValue
    simp [getVal]
  · intro instanceValues name src spec v hget hsome hne href
    unfold resolveInputValue
    simp only [hget]
    rw [if_pos (by simp [hsome, sourceTruthy, hne])]
    rw [hsome]
    simp only [Option.getD_some, href]
  · intro instanceValues name src e spec hget hsome hne href
    unfold resolveInputValue
    simp only [hget]
    rw [if_pos (by simp [hsome, sourceTruthy, hne])]
    rw [hsome]
    simp only [Option.getD_some, href]
  · intro instanceValues name spec hget hsrc hdef
    unfold resolveInputValue
    simp only [hget, hsrc, Bool.false_eq_true, if_false]
    rw [if_pos hdef]
  · intro instanceValues name spec hget hsrc hdef
    exact resolveInputValue_required_missing resolveRef fileExists
      resolvePath instanceValues name spec hget hsrc hdef
  · intro s nodeId outputPath newId now name spec node hfind hinputs hsrc hdef
    have hf2 : findNode
        { s with instances := s.instances ++
            [{ id := newId, nodeId := nodeId, inputValues := [],
               outputPath := outputPath, lastBuilt := none,
               buildCount := 0 }] } nodeId = some node := hfind
    have hb : (fun (n : NodeRec) (i : InstanceRec) =>
          match resolveInputValues resolveRef fileExists resolvePath
              n.config.inputs i.inputValues with
          | .error e => .error e
          | .ok _ => .ok ()) node
        { id := newId, nodeId := nodeId, inputValues := [],
          outputPath := outputPath, lastBuilt := none, buildCount := 0 } =
        Except.error ("Required input '" ++ name ++ "' not provided") := by
      show (match resolveInputValues resolveRef fileExists resolvePath
          node.config.inputs [] with
        | .error e => Except.error e
        | .ok _ => Except.ok ()) = _
      rw [hinputs]
      unfold resolveInputValues
      rw [resolveInputValue_required_missing resolveRef fileExists
        resolvePath [] name spec rfl hsrc hdef]
    unfold createInstance
    simp only [hf2]
    rw [buildInstance_error _ now node _ _ hb]

/-- C5 (witness): the resolution-order theorem at concrete inputs — an
explicit value wins; a resolvable source is used; a dangling source falls
back to the default with a Warning; a present default is used; a missing
required input with no default errors, both in the resolver and through
`create_instance`. -/
theorem C5_input_resolution_order_witness :
    (resolveInputValue
        (fun r => if r = "@up.out" then Except.ok (PyVal.str "V")
                  else Except.error "missing")
        (fun _ => false) (fun p => p)
        [("x", PyVal.int 3)] "x"
        (InputSpecM.mk InputTypeM.string PyVal.pnone true none) =
      .ok (adjustFileValue (fun _ => false) (fun p => p)
            (InputSpecM.mk InputTypeM.string PyVal.pnone true none)
            (PyVal.int 3), [])) ∧
    ((getVal "x" ([] : List (String × PyVal)) = none) ∧
     ((InputSpecM.mk InputTypeM.string PyVal.pnone false
        (some "@up.out")).source = some "@up.out") ∧
     ("@up.out" ≠ "") ∧
     ((fun r => if r = "@up.out" then Except.ok (PyVal.str "V")
                else Except.error "missing") "@up.out" =
        .ok (PyVal.str "V")) ∧
     (resolveInputValue
        (fun r => if r = "@up.out" then Except.ok (PyVal.str "V")
                  else Except.error "missing")
        (fun _ => false) (fun p => p) [] "x"
        (InputSpecM.mk InputTypeM.string PyVal.pnone false
          (some "@up.out")) =
      .ok (adjustFileValue (fun _ => false) (fun p => p)
            (InputSpecM.mk InputTypeM.string PyVal.pnone false
              (some "@up.out"))
            (PyVal.str "V"), []))) ∧
    (((fun r => if r = "@up.out" then Except.ok (PyVal.str "V")
                else Except.error "missing") "@dead.out" =
        .error "missing") ∧
     (resolveInputValue
        (fun r => if r = "@up.out" then Except.ok (PyVal.str "V")
                  else Except.error "missing")
        (fun _ => false) (fun p => p) [] "x"
        (InputSpecM.mk InputTypeM.string (PyVal.str "dflt") false
          (some "@dead.out")) =
      .ok (adjustFileValue (fun _ => false) (fun p => p)
            (InputSpecM.mk InputTypeM.string (PyVal.str "dflt") false
              (some "@dead.out"))
            ((InputSpecM.mk InputTypeM.string (PyVal.str "dflt") false
              (some "@dead.out")).default),
          [⟨.warning, "Failed to resolve reference: " ++ "missing"⟩]))) ∧
    ((sourceTruthy (InputSpecM.mk InputTypeM.string (PyVal.str "World")
        false none).source = false) ∧
     ((InputSpecM.mk InputTypeM.string (PyVal.str "World") false
        none).default ≠ PyVal.pnone) ∧
     (resolveInputValue
        (fun r => if r = "@up.out" then Except.ok (PyVal.str "V")
                  else Except.error "missing")
        (fun _ => false) (fun p => p) [] "x"
        (InputSpecM.mk InputTypeM.string (PyVal.str "World") false none) =
      .ok (adjustFileValue (fun _ => false) (fun p => p)
            (InputSpecM.mk InputTypeM.string (PyVal.str "World") false none)
            ((InputSpecM.mk InputTypeM.string (PyVal.str "World") false
              none).default), []))) ∧
    (resolveInputValue
        (fun r => if r = "@up.out" then Except.ok (PyVal.str "V")
                  else Except.error "missing")
        (fun _ => false) (fun p => p) [] "x"
        (InputSpecM.mk InputTypeM.string PyVal.pnone true none) =
      .error ("Required input '" ++ "x" ++ "' not provided")) ∧
    ((findNode
        (DaemonState.mk
          [⟨"tn",
            NodeConfigM.mk NodeTypeM.template
              [("x", InputSpecM.mk InputTypeM.string PyVal.pnone true none)]
              ["greeting.txt"] OutputModeM.replace
              (some "Hello") none none (some 300),
            some "/cfg/t.yaml", 1⟩]
          [] [] []) "tn" =
      some ⟨"tn",
        NodeConfigM.mk NodeTypeM.template
          [("x", InputSpecM.mk InputTypeM.string PyVal.pnone true none)]
          ["greeting.txt"] OutputModeM.replace
          (some "Hello") none none (some 300),
        some "/cfg/t.yaml", 1⟩) ∧
     ((createInstance
        (fun n i =>
          match resolveInputValues
              (fun r => if r = "@up.out" then Except.ok (PyVal.str "V")
                        else Except.error "missing")
              (fun _ => false) (fun p => p)
              n.config.inputs i.inputValues with
          | .error e => .error e
          | .ok _ => .ok ())
        0
        (DaemonState.mk
          [⟨"tn",
            NodeConfigM.mk NodeTypeM.template
              [("x", InputSpecM.mk InputTypeM.string PyVal.pnone true none)]
              ["greeting.txt"] OutputModeM.replace
              (some "Hello") none none (some 300),
            some "/cfg/t.yaml", 1⟩]
          [] [] [])
        "tn" "/home/greeting.txt" [] "i1").2 =
        .error ("Required input '" ++ "x" ++ "' not provided"))) := by
  have h := C5_input_resolution_order
    (fun r => if r = "@up.out" then Except.ok (PyVal.str "V")
              else Except.error "missing")
    (fun _ => false) (fun p => p)
  refine ⟨h.1 "x" (PyVal.int 3) [] _,
    ⟨rfl, rfl, by decide, rfl, h.2.1 [] "x" "@up.out" _ (PyVal.str "V")
      rfl rfl (by decide) rfl⟩,
    ⟨rfl, h.2.2.1 [] "x" "@dead.out" "missing" _ rfl rfl (by decide) rfl⟩,
    ⟨rfl, by decide, h.2.2.2.1 [] "x" _ rfl rfl (by decide)⟩,
    h.2.2.2.2.1 [] "x" _ rfl rfl rfl,
    ⟨by decide, h.2.2.2.2.2
      (DaemonState.mk
        [⟨"tn",
          NodeConfigM.mk NodeTypeM.template
            [("x", InputSpecM.mk InputTypeM.string PyVal.pnone true none)]
            ["greeting.txt"] OutputModeM.replace
            (some "Hello") none none (some 300),
          some "/cfg/t.yaml", 1⟩]
        [] [] [])
      "tn" "/home/greeting.txt" "i1" 0 "x"
      (InputSpecM.mk InputTypeM.string PyVal.pnone true none)
      ⟨"tn",
        NodeConfigM.mk NodeTypeM.template
          [("x", InputSpecM.mk InputTypeM.string PyVal.pnone true none)]
          ["greeting.txt"] OutputModeM.replace
          (some "Hello") none none (some 300),
        some "/cfg/t.yaml", 1⟩
      (by decide) rfl rfl rfl⟩⟩

end LivingTemplates
